import Mathlib

set_option maxRecDepth 4000

/-!
Verification of the media-resolution and acquisition pipeline of the
youtube-telegram-bot repository (src/bot.py, src/config.py).

Python strings are modelled as Lean `String`s; where character-level
reasoning is needed we work on `String.data : List Char`.  A raw dict
key has three states — absent, present storing None, present storing a
value — modelled as `Option (Option α)`, while a plain nullable value is
one `Option`; the third-party extraction engine (yt-dlp) is an external
capability, passed in as a function that either returns a raw record or
fails (`Except`), mirroring the fact that every engine call in the
source sits inside a try/except.
-/

namespace YTBot

/-- Whitespace stripped by Python's str.strip with no argument (ASCII part;
the source titles here never carry the further Unicode space characters,
and the proved properties do not depend on the exact predicate). -/
def pyIsSpace (c : Char) : Bool :=
  c = ' ' || c = '\t' || c = '\n' || c = '\r' || c = '\x0b' || c = '\x0c'

/-- Python str.strip: drop whitespace from both ends (bot.py line 417). -/
def pyStrip (l : List Char) : List Char :=
  List.rdropWhile pyIsSpace (List.dropWhile pyIsSpace l)

/-- The invalid characters of sanitize_filename (bot.py line 409). -/
def invalid_chars : List Char := ['<', '>', ':', '"', '/', '\\', '|', '?', '*']

/-- One `filename.replace(char, underscore)` pass (bot.py line 411). -/
def replace_char (c : Char) (l : List Char) : List Char :=
  l.map fun x => if x = c then '_' else x

/-- The loop `for char in invalid_chars: filename = filename.replace(...)`. -/
def remove_invalid (l : List Char) : List Char :=
  invalid_chars.foldl (fun acc c => replace_char c acc) l

/-- Pointwise description of `remove_invalid` (proved equal below). -/
def substInvalid (c : Char) : Char := if c ∈ invalid_chars then '_' else c

/-- YouTubeBot.sanitize_filename on character lists (bot.py lines 406-417):
replace the invalid characters, truncate to 100, strip whitespace. -/
def sanitizeList (l : List Char) : List Char :=
  pyStrip ((remove_invalid l).take 100)

/-- YouTubeBot.sanitize_filename (bot.py lines 406-417). -/
def sanitize_filename (s : String) : String :=
  String.mk (sanitizeList s.data)

/-- Python str.startswith, used by the output-discovery scans. -/
def startswith (s pre : String) : Bool := pre.data.isPrefixOf s.data

/-- Python str.endswith, used by the output-discovery scans. -/
def endswith (s suf : String) : Bool := suf.data.isSuffixOf s.data

/-! ### Regular expressions

`is_youtube_url` applies `re.match` with seven fixed patterns.  We embed
the exact patterns with a small derivative-based regular-expression
matcher; `RE.matchHere` is the truthiness of `re.match`: some prefix of
the input matches the pattern. -/

inductive RE where
  | fail : RE
  | eps : RE
  | cls : (Char → Bool) → RE
  | cat : RE → RE → RE
  | alt : RE → RE → RE
  | star : RE → RE

def RE.nullable : RE → Bool
  | .fail => false
  | .eps => true
  | .cls _ => false
  | .cat r s => r.nullable && s.nullable
  | .alt r s => r.nullable || s.nullable
  | .star _ => true

def RE.deriv : RE → Char → RE
  | .fail, _ => .fail
  | .eps, _ => .fail
  | .cls p, c => if p c then .eps else .fail
  | .cat r s, c =>
    if r.nullable then .alt (.cat (r.deriv c) s) (s.deriv c) else .cat (r.deriv c) s
  | .alt r s, c => .alt (r.deriv c) (s.deriv c)
  | .star r, c => .cat (r.deriv c) (.star r)

/-- re.match truthiness: some (possibly empty) prefix of the input
matches the pattern anchored at the start. -/
def RE.matchHere (r : RE) : List Char → Bool
  | [] => r.nullable
  | c :: cs => r.nullable || (r.deriv c).matchHere cs

def reChar (c : Char) : RE := .cls fun x => x == c

def reLit (s : String) : RE := s.data.foldr (fun c r => .cat (reChar c) r) .eps

def reOpt (r : RE) : RE := .alt .eps r

def rePlus (r : RE) : RE := .cat r (.star r)

def reSeq (l : List RE) : RE := l.foldr .cat .eps

/-- Character class `[\w-]` (ASCII view of Python's word characters). -/
def wordDash : RE := .cls fun c => c.isAlphanum || c == '_' || c == '-'

/-- Python's `.` : any character except a newline. -/
def anyNonNewline : RE := .cls fun c => c != '\n'

/-- The optional scheme group `(?:https?://)?` shared by all patterns. -/
def schemeOpt : RE := reOpt (reSeq [reLit "http", reOpt (reChar 's'), reLit "://"])

/-- Pattern `(?:https?://)?(?:www\.)?youtube\.com/watch\?v=[\w-]+`. -/
def watchPattern : RE :=
  reSeq [schemeOpt, reOpt (reLit "www."), reLit "youtube.com/watch?v=", rePlus wordDash]

/-- Pattern `(?:https?://)?(?:www\.)?youtu\.be/[\w-]+`. -/
def shortLinkPattern : RE :=
  reSeq [schemeOpt, reOpt (reLit "www."), reLit "youtu.be/", rePlus wordDash]

/-- Pattern `(?:https?://)?(?:m\.)?youtube\.com/watch\?v=[\w-]+`. -/
def mobileWatchPattern : RE :=
  reSeq [schemeOpt, reOpt (reLit "m."), reLit "youtube.com/watch?v=", rePlus wordDash]

/-- Pattern `(?:https?://)?(?:www\.)?youtube\.com/shorts/[\w-]+`. -/
def shortsPattern : RE :=
  reSeq [schemeOpt, reOpt (reLit "www."), reLit "youtube.com/shorts/", rePlus wordDash]

/-- Pattern `(?:https?://)?(?:m\.)?youtube\.com/shorts/[\w-]+`. -/
def mobileShortsPattern : RE :=
  reSeq [schemeOpt, reOpt (reLit "m."), reLit "youtube.com/shorts/", rePlus wordDash]

/-- Pattern `...watch\?v=[\w-]+(&.*)?` (bot.py line 92). -/
def watchParamsPattern : RE :=
  .cat watchPattern (reOpt (.cat (reChar '&') (.star anyNonNewline)))

/-- Pattern `...shorts/[\w-]+(\?.*)?` (bot.py line 93). -/
def shortsParamsPattern : RE :=
  .cat shortsPattern (reOpt (.cat (reChar '?') (.star anyNonNewline)))

/-- The youtube_patterns list of YouTubeBot.is_youtube_url (bot.py 83-94). -/
def youtube_patterns : List RE :=
  [watchPattern, shortLinkPattern, mobileWatchPattern, shortsPattern,
   mobileShortsPattern, watchParamsPattern, shortsParamsPattern]

/-- YouTubeBot.is_youtube_url (bot.py lines 81-95):
`any(re.match(pattern, url) for pattern in youtube_patterns)`. -/
def is_youtube_url (url : String) : Bool :=
  youtube_patterns.any fun p => p.matchHere url.data

/-! ### Metadata resolution -/

/-- One yt-dlp options dictionary as used by get_video_info; the http
headers dictionary only ever carries a user agent. -/
structure YdlOpts where
  quiet : Bool
  no_warnings : Bool
  extract_flat : Bool
  nocheckcertificate : Bool
  user_agent : Option String
  prefer_insecure : Bool
deriving DecidableEq

def mozillaUserAgent : String :=
  "Mozilla/5.0 (Windows NT 10.0; Win64; x64) AppleWebKit/537.36 (KHTML, like Gecko) Chrome/91.0.4472.124 Safari/537.36"

/-- Strategy 1: default options (bot.py lines 103-107). -/
def strategy1 : YdlOpts := ⟨true, true, false, false, none, false⟩

/-- Strategy 2: disable SSL verification (bot.py lines 109-114). -/
def strategy2 : YdlOpts := ⟨true, true, false, true, none, false⟩

/-- Strategy 3: custom headers and no SSL check (bot.py lines 116-124). -/
def strategy3 : YdlOpts := ⟨true, true, false, true, some mozillaUserAgent, false⟩

/-- Strategy 4: alternative extractor settings (bot.py lines 126-132). -/
def strategy4 : YdlOpts := ⟨true, true, false, true, none, true⟩

/-- ydl_opts_list (bot.py lines 101-133). -/
def ydl_opts_list : List YdlOpts := [strategy1, strategy2, strategy3, strategy4]

/-- The raw yt-dlp info dictionary.  A Python dict key has three states,
which `Option (Option α)` captures exactly: `none` — the key is absent;
`some none` — the key is present and stores None (yt-dlp does this, e.g.
like_count: None when likes are hidden); `some (some v)` — the key is
present and stores the value v. -/
structure RawInfo where
  title : Option (Option String)
  uploader : Option (Option String)
  duration : Option (Option Int)
  like_count : Option (Option Int)
  view_count : Option (Option Int)
  id : Option (Option String)
  thumbnail : Option (Option String)
deriving DecidableEq

/-- Python `info.get(key, default)`: the default is used only when the
key is absent; a stored value — None included — passes through
unchanged. -/
def dict_get {α : Type} (field : Option (Option α)) (default : α) : Option α :=
  match field with
  | none => some default
  | some v => v

/-- The dictionary built on success in get_video_info (bot.py 142-151).
Each value is `Option`-typed because `info.get` passes a stored None
through, so a field of this record is None exactly when the raw dict
stored None under that key; the url field is the request url itself. -/
structure NormalizedInfo where
  title : Option String
  uploader : Option String
  duration : Option Int
  like_count : Option Int
  view_count : Option Int
  url : String
  id : Option String
  thumbnail : Option String
deriving DecidableEq

/-- The normalization of get_video_info (bot.py 142-151): `info.get`
with defaults Unknown / 0 / the empty string, applied field by field. -/
def normalize_info (url : String) (info : RawInfo) : NormalizedInfo :=
  ⟨dict_get info.title "Unknown", dict_get info.uploader "Unknown",
   dict_get info.duration 0, dict_get info.like_count 0,
   dict_get info.view_count 0, url, dict_get info.id "",
   dict_get info.thumbnail ""⟩

/-- The resolved metadata record of the spec's data model (all fields
populated), as the gate and the session state consume it. -/
structure VideoMetadata where
  title : String
  uploader : String
  duration : Int
  like_count : Int
  view_count : Int
  url : String
  id : String
  thumbnail : String
deriving DecidableEq

/-- The strategy loop of get_video_info (bot.py 136-154): try each options
dictionary in order; an engine failure is logged and the loop continues; a
success returns the normalized record at once.  The first component
records the strategies actually attempted, the second the outcome. -/
def run_strategies (extract : YdlOpts → Except String RawInfo) (url : String) :
    List YdlOpts → List YdlOpts × Option NormalizedInfo
  | [] => ([], none)
  | o :: rest =>
    match extract o with
    | Except.ok info => ([o], some (normalize_info url info))
    | Except.error _ =>
      (o :: (run_strategies extract url rest).1, (run_strategies extract url rest).2)

/-- YouTubeBot.get_video_info (bot.py lines 97-162): None when every
strategy failed, otherwise the first successful strategy's record. -/
def get_video_info (extract : YdlOpts → Except String RawInfo) (url : String) :
    Option NormalizedInfo :=
  (run_strategies extract url ydl_opts_list).2

/-- The strategies get_video_info actually invoked the engine with. -/
def attempted_strategies (extract : YdlOpts → Except String RawInfo) (url : String) :
    List YdlOpts :=
  (run_strategies extract url ydl_opts_list).1

/-! ### Popularity gate and session state -/

/-- The gate decision of process_youtube_url (bot.py line 192): the
download is refused exactly when `likes < self.likes_threshold`. -/
def gate_allows (like_count threshold : Int) : Bool :=
  if like_count < threshold then false else true

/-- Effect of process_youtube_url (bot.py 164-223) on the per-session
`context.user_data['video_info']` slot: unchanged when resolution failed
or the gate refused; overwritten with the new record on gate pass. -/
def process_youtube_url_state (resolved : Option VideoMetadata) (threshold : Int)
    (session : Option VideoMetadata) : Option VideoMetadata :=
  match resolved with
  | none => session
  | some info => if info.like_count < threshold then session else some info

/-- The replies handle_callback can give (edit_message_text contents). -/
inductive BotReply where
  | cancelled : BotReply
  | sessionExpired : BotReply
  | startedDownload : String → BotReply
  | noReply : BotReply
deriving DecidableEq

/-- YouTubeBot.handle_callback (bot.py lines 225-242) as a transition on
the session slot: the pair is (session slot after the call, reply).  The
source never writes `context.user_data`, so the slot passes through. -/
def handle_callback (data : String) (video_info : Option VideoMetadata) :
    Option VideoMetadata × BotReply :=
  if data = "cancel" then (video_info, BotReply.cancelled)
  else
    match video_info with
    | none => (none, BotReply.sessionExpired)
    | some info =>
      if data = "download_mp4" then (some info, BotReply.startedDownload "mp4")
      else if data = "download_mp3" then (some info, BotReply.startedDownload "mp3")
      else (some info, BotReply.noReply)

/-! ### Download orchestration and output discovery -/

/-- The tuple `(success, file_path)` returned by the download methods. -/
structure DownloadResult where
  success : Bool
  filePath : Option String
deriving DecidableEq

/-- audio_extensions (bot.py line 381). -/
def audio_extensions : List String := [".mp3", ".m4a", ".webm", ".ogg", ".aac", ".opus"]

/-- os.path.join for one scratch-directory component. -/
def path_join (dir file : String) : String := dir ++ "/" ++ file

/-- The discovery scan of download_video (bot.py 319-321): the first
directory entry whose name starts with the sanitized title; no
extension condition at all. -/
def find_video_file (safe_title : String) (files : List String) : Option String :=
  files.find? fun f => startswith f safe_title

/-- The discovery scans of download_audio (bot.py 373-394): expected
extension first (only when transcoding was requested), then any audio
extension with the title prefix, then any audio extension at all. -/
def find_audio_file (expected_extension : Option String) (safe_title : String)
    (files : List String) : Option String :=
  match (match expected_extension with
    | some ext => files.find? fun f => startswith f safe_title && endswith f ext
    | none => none) with
  | some f => some f
  | none =>
    match files.find? fun f =>
        startswith f safe_title && audio_extensions.any fun ext => endswith f ext with
    | some f => some f
    | none => files.find? fun f => audio_extensions.any fun ext => endswith f ext

/-- Step-1 predicate of the audio discovery scan. -/
def audioPred1 (expected_extension : Option String) (safe_title : String)
    (f : String) : Bool :=
  match expected_extension with
  | some ext => startswith f safe_title && endswith f ext
  | none => false

/-- Step-2 predicate of the audio discovery scan. -/
def audioPred2 (safe_title : String) (f : String) : Bool :=
  startswith f safe_title && audio_extensions.any fun ext => endswith f ext

/-- Step-3 predicate of the audio discovery scan. -/
def audioPred3 (f : String) : Bool :=
  audio_extensions.any fun ext => endswith f ext

/-- YouTubeBot.download_video (bot.py lines 301-327).  The engine call
(`ydl.download`) is passed in as its outcome; any exception is caught by
the enclosing try and becomes `(False, None)`. -/
def download_video (fetch : Except String Unit) (output_dir title : String)
    (files : List String) : DownloadResult :=
  match fetch with
  | Except.error _ => ⟨false, none⟩
  | Except.ok _ =>
    match find_video_file (sanitize_filename title) files with
    | some f => ⟨true, some (path_join output_dir f)⟩
    | none => ⟨false, none⟩

/-- YouTubeBot.download_audio (bot.py lines 329-404).  `ffmpeg_available`
is the `shutil.which` probe; with ffmpeg the engine is asked to transcode
to mp3 and the expected extension is ".mp3", otherwise no expected
extension is recorded. -/
def download_audio (ffmpeg_available : Bool) (fetch : Except String Unit)
    (output_dir title : String) (files : List String) : DownloadResult :=
  match fetch with
  | Except.error _ => ⟨false, none⟩
  | Except.ok _ =>
    let expected_extension : Option String :=
      if ffmpeg_available then some ".mp3" else none
    match find_audio_file expected_extension (sanitize_filename title) files with
    | some f => ⟨true, some (path_join output_dir f)⟩
    | none => ⟨false, none⟩

/-! ### Spec-side definitions for the refinement comparison -/

/-- Modelled from the spec: the "known audio/video extensions" named by
claim C2's step 2; the audio extensions of the source plus the common
video containers the spec's video branch can negotiate. -/
def specKnownAVExtensions : List String :=
  audio_extensions ++ [".mp4", ".mkv", ".avi", ".mov", ".flv"]

/-- Modelled from the spec: output discovery exactly as claim C2 states
it, for both kinds: (1) title prefix and the expected extension of the
branch taken (".mp3" when transcoding was used); (2) title prefix and a
known audio/video extension; (3) for the audio kind only, any entry with
a known audio extension; otherwise no path. -/
def specOutputDiscovery (isAudio transcodeUsed : Bool) (safeTitle : String)
    (files : List String) : Option String :=
  let expected : Option String := if transcodeUsed then some ".mp3" else none
  match (match expected with
    | some ext => files.find? fun f => startswith f safeTitle && endswith f ext
    | none => none) with
  | some f => some f
  | none =>
    match files.find? fun f =>
        startswith f safeTitle && specKnownAVExtensions.any fun ext => endswith f ext with
    | some f => some f
    | none =>
      if isAudio then files.find? fun f => audio_extensions.any fun ext => endswith f ext
      else none

/-! ### Concrete sample data used by the witnesses -/

def sampleRaw : RawInfo :=
  ⟨some (some "Video"), some (some "Chan"), some (some 120), some (some 42),
   some (some 1000), some (some "abc123"), some (some "thumb")⟩

/-- A raw dict as yt-dlp returns it for a video with hidden likes: the
like_count key is present but stores None. -/
def nullRaw : RawInfo :=
  ⟨some (some "Video"), some (some "Chan"), some (some 120), some none,
   some (some 1000), some (some "abc123"), some (some "thumb")⟩

def emptyRaw : RawInfo := ⟨none, none, none, none, none, none, none⟩

def sampleMeta : VideoMetadata :=
  ⟨"Video", "Chan", 120, 42, 1000, "https://youtu.be/abc123", "abc123", "thumb"⟩

/-- An engine for which exactly the third strategy succeeds. -/
def sampleExtract (o : YdlOpts) : Except String RawInfo :=
  if o = strategy3 then Except.ok sampleRaw else Except.error "failed"

/-- An engine for which every strategy fails. -/
def allFailExtract (_ : YdlOpts) : Except String RawInfo := Except.error "failed"

end YTBot

namespace YTBot

/-! ## Helper lemmas on the sanitizer -/

/-- Folding the per-character replacements over a cons acts pointwise on
the head and recursively on the tail. -/
theorem foldl_replace_cons (cs : List Char) (a : Char) (l : List Char) :
    cs.foldl (fun acc c => replace_char c acc) (a :: l) =
      cs.foldl (fun x c => if x = c then '_' else x) a ::
        cs.foldl (fun acc c => replace_char c acc) l := by
  induction cs generalizing a l with
  | nil => rfl
  | cons c cs ih =>
    simp only [List.foldl_cons]
    rw [show replace_char c (a :: l) = (if a = c then '_' else a) :: replace_char c l from rfl]
    exact ih _ _

/-- The character-level fold over the nine invalid characters computes
the pointwise substitution. -/
theorem charFold_eq_substInvalid (a : Char) :
    invalid_chars.foldl (fun x c => if x = c then '_' else x) a = substInvalid a := by
  by_cases h : a ∈ invalid_chars
  · fin_cases h <;> rfl
  · have hne := h
    simp only [invalid_chars, List.mem_cons, List.not_mem_nil, or_false, not_or] at hne
    obtain ⟨h1, h2, h3, h4, h5, h6, h7, h8, h9⟩ := hne
    simp [invalid_chars, substInvalid, List.foldl, h, h1, h2, h3, h4, h5, h6, h7, h8, h9]

theorem remove_invalid_cons (a : Char) (l : List Char) :
    remove_invalid (a :: l) = substInvalid a :: remove_invalid l := by
  unfold remove_invalid
  rw [foldl_replace_cons, charFold_eq_substInvalid]

/-- The replacement loop of sanitize_filename is the pointwise map. -/
theorem remove_invalid_eq_map (l : List Char) :
    remove_invalid l = l.map substInvalid := by
  induction l with
  | nil => rfl
  | cons a l ih => rw [remove_invalid_cons, ih, List.map_cons]

theorem substInvalid_not_mem (c : Char) : substInvalid c ∉ invalid_chars := by
  unfold substInvalid
  by_cases h : c ∈ invalid_chars
  · rw [if_pos h]; decide
  · rw [if_neg h]; exact h

theorem pyStrip_sublist (l : List Char) : (pyStrip l).Sublist l := by
  unfold pyStrip
  exact (( List.rdropWhile_prefix pyIsSpace (List.dropWhile pyIsSpace l)).sublist).trans
    ((List.dropWhile_suffix pyIsSpace).sublist)

/-- No character of the sanitized output is an invalid character. -/
theorem mem_sanitizeList (l : List Char) (c : Char) (hc : c ∈ sanitizeList l) :
    c ∉ invalid_chars := by
  unfold sanitizeList at hc
  have h1 : c ∈ (remove_invalid l).take 100 := (pyStrip_sublist _).subset hc
  have h2 : c ∈ remove_invalid l := List.take_subset _ _ h1
  rw [remove_invalid_eq_map] at h2
  obtain ⟨d, _, rfl⟩ := List.mem_map.mp h2
  exact substInvalid_not_mem d

/-- The sanitized output has at most 100 characters. -/
theorem sanitizeList_length_le (l : List Char) : (sanitizeList l).length ≤ 100 := by
  unfold sanitizeList
  exact le_trans (pyStrip_sublist _).length_le (List.length_take_le _ _)

/-- Stripping is idempotent. -/
theorem pyStrip_pyStrip (l : List Char) : pyStrip (pyStrip l) = pyStrip l := by
  unfold pyStrip
  have hdd : List.dropWhile pyIsSpace
      (List.rdropWhile pyIsSpace (List.dropWhile pyIsSpace l)) =
      List.rdropWhile pyIsSpace (List.dropWhile pyIsSpace l) := by
    cases hm : List.rdropWhile pyIsSpace (List.dropWhile pyIsSpace l) with
    | nil => rfl
    | cons a t' =>
      have hpre := List.rdropWhile_prefix pyIsSpace (List.dropWhile pyIsSpace l)
      rw [hm] at hpre
      obtain ⟨t, ht⟩ := hpre
      have hhead := List.head?_dropWhile_not pyIsSpace l
      rw [← ht] at hhead
      simp only [List.cons_append, List.head?_cons] at hhead
      exact List.dropWhile_cons_of_neg (by simp [hhead])
  rw [hdd, List.rdropWhile_idempotent]

/-- Sanitization is idempotent at the character-list level. -/
theorem sanitizeList_idem (l : List Char) :
    sanitizeList (sanitizeList l) = sanitizeList l := by
  have hclean : remove_invalid (sanitizeList l) = sanitizeList l := by
    rw [remove_invalid_eq_map]
    have hpt : ∀ c ∈ sanitizeList l, substInvalid c = id c := by
      intro c hc
      unfold substInvalid
      rw [if_neg (mem_sanitizeList l c hc)]
      rfl
    rw [List.map_congr_left hpt, List.map_id]
  have hlen : (sanitizeList l).length ≤ 100 := sanitizeList_length_le l
  show pyStrip ((remove_invalid (sanitizeList l)).take 100) = sanitizeList l
  rw [hclean, List.take_of_length_le hlen]
  show pyStrip (pyStrip ((remove_invalid l).take 100)) = sanitizeList l
  rw [pyStrip_pyStrip]
  rfl

end YTBot

namespace YTBot

/-! ## Helper lemmas on the matcher -/

/-- A nullable pattern matches at the start of any input (the empty
prefix). -/
theorem RE.matchHere_of_nullable (r : RE) (hn : r.nullable = true)
    (l : List Char) : r.matchHere l = true := by
  cases l with
  | nil => exact hn
  | cons c cs => simp [RE.matchHere, hn]

/-- re.match is a prefix match: extending the input to the right cannot
destroy a match. -/
theorem RE.matchHere_append (r : RE) (xs ys : List Char)
    (h : r.matchHere xs = true) : r.matchHere (xs ++ ys) = true := by
  induction xs generalizing r with
  | nil => exact RE.matchHere_of_nullable r h ys
  | cons c cs ih =>
    simp only [RE.matchHere, Bool.or_eq_true] at h
    rcases h with h | h
    · exact RE.matchHere_of_nullable _ h _
    · simp only [List.cons_append, RE.matchHere, Bool.or_eq_true]
      exact Or.inr (ih _ h)

/-- The URL classifier is insensitive to trailing text after a match. -/
theorem is_youtube_url_append (u t : String) (h : is_youtube_url u = true) :
    is_youtube_url (u ++ t) = true := by
  unfold is_youtube_url at h ⊢
  rw [List.any_eq_true] at h ⊢
  obtain ⟨p, hp, hm⟩ := h
  refine ⟨p, hp, ?_⟩
  rw [show (u ++ t).data = u.data ++ t.data from rfl]
  exact RE.matchHere_append p u.data t.data hm

/-! ## Helper lemmas on the resolver loop -/

/-- A strategy-list prefix of failures is walked over, and the first
success stops the loop at once. -/
theorem run_strategies_first_ok (extract : YdlOpts → Except String RawInfo)
    (url : String) :
    ∀ (pre : List YdlOpts) (o : YdlOpts) (post : List YdlOpts) (info : RawInfo),
      (∀ q ∈ pre, ∃ e, extract q = Except.error e) →
      extract o = Except.ok info →
      run_strategies extract url (pre ++ o :: post) =
        (pre ++ [o], some (normalize_info url info)) := by
  intro pre
  induction pre with
  | nil =>
    intro o post info _ hok
    simp only [List.nil_append, run_strategies, hok]
  | cons q pre ih =>
    intro o post info hpre hok
    obtain ⟨e, he⟩ := hpre q (by simp)
    have ih' := ih o post info (fun q' hq' => hpre q' (by simp [hq'])) hok
    simp only [List.cons_append, run_strategies, he, List.append_eq, ih']

/-- The resolver returns nothing exactly when every strategy in the list
fails. -/
theorem run_strategies_none_iff (extract : YdlOpts → Except String RawInfo)
    (url : String) (l : List YdlOpts) :
    (run_strategies extract url l).2 = none ↔
      ∀ o ∈ l, ∃ e, extract o = Except.error e := by
  induction l with
  | nil => simp [run_strategies]
  | cons o rest ih =>
    cases he : extract o with
    | ok info => simp [run_strategies, he, List.forall_mem_cons]
    | error e => simp [run_strategies, he, List.forall_mem_cons, ih]

/-! ## Helper lemmas on output discovery -/

/-- The audio discovery scan phrased with the three named step
predicates. -/
theorem find_audio_file_eq (expected : Option String) (safe : String)
    (files : List String) :
    find_audio_file expected safe files =
      (match files.find? (audioPred1 expected safe) with
       | some f => some f
       | none =>
         match files.find? (audioPred2 safe) with
         | some f => some f
         | none => files.find? audioPred3) := by
  cases expected with
  | none =>
    have h1 : files.find? (audioPred1 none safe) = none :=
      List.find?_eq_none.mpr fun x _ => by simp [audioPred1]
    rw [h1]
    rfl
  | some ext => rfl

end YTBot

namespace YTBot

/-! ## Claim theorems -/

/-- Claim C1: get_video_info tries the four extraction configurations in
their fixed order; it returns the normalized metadata of the first
configuration that succeeds without attempting any later one (in
particular, when only the third succeeds the fourth is never attempted),
and it returns no metadata exactly when all four configurations fail. -/
theorem C1_resolver_fallback (extract : YdlOpts → Except String RawInfo)
    (url : String) :
    (∀ pre o post, ydl_opts_list = pre ++ o :: post →
      (∀ q ∈ pre, ∃ e, extract q = Except.error e) →
      ∀ info, extract o = Except.ok info →
        get_video_info extract url = some (normalize_info url info) ∧
        attempted_strategies extract url = pre ++ [o]) ∧
    (∀ e1 e2 info, extract strategy1 = Except.error e1 →
      extract strategy2 = Except.error e2 → extract strategy3 = Except.ok info →
        get_video_info extract url = some (normalize_info url info) ∧
        strategy4 ∉ attempted_strategies extract url) ∧
    (get_video_info extract url = none ↔
      ∀ o ∈ ydl_opts_list, ∃ e, extract o = Except.error e) := by
  refine ⟨?_, ?_, run_strategies_none_iff extract url ydl_opts_list⟩
  · intro pre o post hsplit hpre info hok
    unfold get_video_info attempted_strategies
    rw [hsplit, run_strategies_first_ok extract url pre o post info hpre hok]
    exact ⟨rfl, rfl⟩
  · intro e1 e2 info h1 h2 h3
    have hpre : ∀ q ∈ [strategy1, strategy2], ∃ e, extract q = Except.error e := by
      intro q hq
      simp only [List.mem_cons, List.not_mem_nil, or_false] at hq
      rcases hq with rfl | rfl
      exacts [⟨e1, h1⟩, ⟨e2, h2⟩]
    have hmain := run_strategies_first_ok extract url [strategy1, strategy2]
      strategy3 [strategy4] info hpre h3
    constructor
    · unfold get_video_info
      rw [show ydl_opts_list = [strategy1, strategy2] ++ strategy3 :: [strategy4] from rfl,
        hmain]
    · unfold attempted_strategies
      rw [show ydl_opts_list = [strategy1, strategy2] ++ strategy3 :: [strategy4] from rfl,
        hmain]
      show strategy4 ∉ ([strategy1, strategy2] ++ [strategy3] : List YdlOpts)
      decide

/-- Witness for C1: an engine succeeding only on the third strategy gives
the third strategy's normalized record and never attempts the fourth; an
engine failing everywhere gives no metadata. -/
theorem C1_resolver_fallback_witness :
    get_video_info sampleExtract "https://youtu.be/abc123" =
      some (normalize_info "https://youtu.be/abc123" sampleRaw) ∧
    strategy4 ∉ attempted_strategies sampleExtract "https://youtu.be/abc123" ∧
    get_video_info allFailExtract "https://youtu.be/abc123" = none := by
  refine ⟨?_, ?_, ?_⟩
  · exact ((C1_resolver_fallback sampleExtract "https://youtu.be/abc123").2.1
      "failed" "failed" sampleRaw rfl rfl rfl).1
  · exact ((C1_resolver_fallback sampleExtract "https://youtu.be/abc123").2.1
      "failed" "failed" sampleRaw rfl rfl rfl).2
  · exact (C1_resolver_fallback allFailExtract "https://youtu.be/abc123").2.2.mpr
      (fun o _ => ⟨"failed", rfl⟩)

/-- Counterexample to claim C3, at two concrete raw records.  First, the
record with every key absent is normalized with the empty string, not
"Unknown", in its id (and thumbnail) field.  Second, normalization does
propagate nulls: a like_count key that is present but stores None passes
through unchanged, so the resulting record is not fully populated. -/
theorem C3_normalization_counterexample :
    (normalize_info "url" emptyRaw).id = some "" ∧
    ¬ (normalize_info "url" emptyRaw).id = some "Unknown" ∧
    (normalize_info "url" emptyRaw).thumbnail = some "" ∧
    (normalize_info "url" nullRaw).like_count = none := by
  exact ⟨rfl, by decide, rfl, rfl⟩

/-- Claim C3 as amended: normalization replaces every absent key with a
fixed default — "Unknown" for title and uploader, 0 for duration and the
two counts, the empty string for id and thumbnail — while any stored
value, a stored null included, passes through unchanged (Python dict.get
defaults only on absent keys); nulls therefore propagate, the record is
fully populated only when the engine stored no null, and the url field
is the request url. -/
theorem C3_normalization_amended (url : String) (info : RawInfo) :
    (info.title = none → (normalize_info url info).title = some "Unknown") ∧
    (info.uploader = none → (normalize_info url info).uploader = some "Unknown") ∧
    (info.duration = none → (normalize_info url info).duration = some 0) ∧
    (info.like_count = none → (normalize_info url info).like_count = some 0) ∧
    (info.view_count = none → (normalize_info url info).view_count = some 0) ∧
    (info.id = none → (normalize_info url info).id = some "") ∧
    (info.thumbnail = none → (normalize_info url info).thumbnail = some "") ∧
    (∀ v, info.title = some v → (normalize_info url info).title = v) ∧
    (∀ v, info.uploader = some v → (normalize_info url info).uploader = v) ∧
    (∀ v, info.duration = some v → (normalize_info url info).duration = v) ∧
    (∀ v, info.like_count = some v → (normalize_info url info).like_count = v) ∧
    (∀ v, info.view_count = some v → (normalize_info url info).view_count = v) ∧
    (∀ v, info.id = some v → (normalize_info url info).id = v) ∧
    (∀ v, info.thumbnail = some v → (normalize_info url info).thumbnail = v) ∧
    (info.like_count = some none → (normalize_info url info).like_count = none) ∧
    (normalize_info url info).url = url := by
  refine ⟨fun h => by simp [normalize_info, dict_get, h],
    fun h => by simp [normalize_info, dict_get, h],
    fun h => by simp [normalize_info, dict_get, h],
    fun h => by simp [normalize_info, dict_get, h],
    fun h => by simp [normalize_info, dict_get, h],
    fun h => by simp [normalize_info, dict_get, h],
    fun h => by simp [normalize_info, dict_get, h],
    fun v h => by simp [normalize_info, dict_get, h],
    fun v h => by simp [normalize_info, dict_get, h],
    fun v h => by simp [normalize_info, dict_get, h],
    fun v h => by simp [normalize_info, dict_get, h],
    fun v h => by simp [normalize_info, dict_get, h],
    fun v h => by simp [normalize_info, dict_get, h],
    fun v h => by simp [normalize_info, dict_get, h],
    fun h => by simp [normalize_info, dict_get, h], rfl⟩

/-- Witness for the amended C3 at concrete records: all-absent keys get
the defaults, a stored value passes through, and a stored null
propagates. -/
theorem C3_normalization_amended_witness :
    (normalize_info "url" emptyRaw).title = some "Unknown" ∧
    (normalize_info "url" emptyRaw).id = some "" ∧
    (normalize_info "url" sampleRaw).like_count = some 42 ∧
    (normalize_info "url" nullRaw).like_count = none := by
  have h1 := C3_normalization_amended "url" emptyRaw
  have h2 := C3_normalization_amended "url" sampleRaw
  have h3 := C3_normalization_amended "url" nullRaw
  exact ⟨h1.1 rfl, h1.2.2.2.2.2.1 rfl,
    h2.2.2.2.2.2.2.2.2.2.2.1 (some 42) rfl,
    h3.2.2.2.2.2.2.2.2.2.2.2.2.2.2.1 rfl⟩

/-- Claim C4: the popularity gate allows exactly when the like count
reaches the threshold, and it allows at the boundary. -/
theorem C4_popularity_gate (meta : VideoMetadata) (threshold : Int)
    (h : 0 ≤ threshold) :
    (gate_allows meta.like_count threshold = true ↔ threshold ≤ meta.like_count) ∧
    (meta.like_count = threshold → gate_allows meta.like_count threshold = true) := by
  have hiff : gate_allows meta.like_count threshold = true ↔
      threshold ≤ meta.like_count := by
    unfold gate_allows
    by_cases hlt : meta.like_count < threshold
    · rw [if_pos hlt]
      exact iff_of_false (by simp) (by omega)
    · rw [if_neg hlt]
      exact iff_of_true rfl (by omega)
  exact ⟨hiff, fun he => hiff.mpr (le_of_eq he.symm)⟩

/-- Witness for C4 at the sample record (42 likes) and threshold 10, and
at the boundary threshold 42. -/
theorem C4_popularity_gate_witness :
    (gate_allows sampleMeta.like_count 10 = true ↔ (10 : Int) ≤ sampleMeta.like_count) ∧
    gate_allows sampleMeta.like_count sampleMeta.like_count = true := by
  exact ⟨(C4_popularity_gate sampleMeta 10 (by decide)).1,
    (C4_popularity_gate sampleMeta sampleMeta.like_count (by decide)).2 rfl⟩

/-- Claim C9: a format-choice callback arriving with no pending session
metadata is answered with the session-expired error reply and leaves the
slot empty; the handler is a total function, so nothing is thrown. -/
theorem C9_expired_callback (data : String)
    (h : data = "download_mp4" ∨ data = "download_mp3") :
    handle_callback data none = (none, BotReply.sessionExpired) := by
  rcases h with rfl | rfl <;> rfl

/-- Witness for C9 at the mp4 format choice. -/
theorem C9_expired_callback_witness :
    handle_callback "download_mp4" none = (none, BotReply.sessionExpired) :=
  C9_expired_callback "download_mp4" (Or.inl rfl)

end YTBot

namespace YTBot

/-- Claim C5: sanitize_filename replaces the invalid characters, bounds
the length by 100, strips the ends; it is idempotent, its output has at
most 100 characters, and its output contains no invalid character. -/
theorem C5_sanitize_properties (s : String) :
    sanitize_filename (sanitize_filename s) = sanitize_filename s ∧
    (sanitize_filename s).data.length ≤ 100 ∧
    ∀ c ∈ (sanitize_filename s).data, c ∉ invalid_chars := by
  refine ⟨?_, ?_, ?_⟩
  · exact congrArg String.mk (sanitizeList_idem s.data)
  · exact sanitizeList_length_le s.data
  · exact fun c hc => mem_sanitizeList s.data c hc

/-- Witness for C5 at a concrete title containing invalid characters and
surrounding whitespace. -/
theorem C5_sanitize_properties_witness :
    sanitize_filename (sanitize_filename "a<b: c ") = sanitize_filename "a<b: c " ∧
    (sanitize_filename "a<b: c ").data.length ≤ 100 ∧
    '_' ∉ invalid_chars := by
  have h := C5_sanitize_properties "a<b: c "
  exact ⟨h.1, h.2.1, h.2.2 '_' (by decide)⟩

/-- Claim C6: the classifier accepts each supported URL shape (plain
watch link, short link, mobile subdomain, shorts path) with and without
a trailing query string, rejects the empty string, unrelated domains and
malformed inputs, and matches as a prefix: appending any trailing text
to an accepted URL keeps it accepted. -/
theorem C6_url_classifier :
    is_youtube_url "https://www.youtube.com/watch?v=dQw4w9WgXcQ" = true ∧
    is_youtube_url "https://www.youtube.com/watch?v=dQw4w9WgXcQ&t=10s" = true ∧
    is_youtube_url "https://youtu.be/dQw4w9WgXcQ" = true ∧
    is_youtube_url "https://youtu.be/dQw4w9WgXcQ?t=10" = true ∧
    is_youtube_url "https://m.youtube.com/watch?v=dQw4w9WgXcQ" = true ∧
    is_youtube_url "https://www.youtube.com/shorts/abc-DEF_123" = true ∧
    is_youtube_url "https://www.youtube.com/shorts/abc?feature=share" = true ∧
    is_youtube_url "https://m.youtube.com/shorts/abc" = true ∧
    is_youtube_url "" = false ∧
    is_youtube_url "https://vimeo.com/12345" = false ∧
    is_youtube_url "https://www.youtube.com/watch?v=" = false ∧
    is_youtube_url "not a url" = false ∧
    (∀ u t : String, is_youtube_url u = true → is_youtube_url (u ++ t) = true) := by
  refine ⟨by decide, by decide, by decide, by decide, by decide, by decide, by decide,
    by decide, by decide, by decide, by decide, by decide, ?_⟩
  exact fun u t h => is_youtube_url_append u t h

/-- Witness for C6's prefix-matching clause at a concrete URL and
trailing query string. -/
theorem C6_url_classifier_witness :
    is_youtube_url ("https://youtu.be/abc" ++ "?feature=share") = true :=
  C6_url_classifier.2.2.2.2.2.2.2.2.2.2.2.2 "https://youtu.be/abc" "?feature=share"
    (by decide)

/-- Claim C10: the scheme is optional in every pattern, so scheme-less
and plain-http inputs of every supported shape are accepted. -/
theorem C10_scheme_optional :
    is_youtube_url "youtube.com/watch?v=VIDEO_ID" = true ∧
    is_youtube_url "www.youtube.com/watch?v=VIDEO_ID" = true ∧
    is_youtube_url "youtu.be/VIDEO_ID" = true ∧
    is_youtube_url "www.youtu.be/VIDEO_ID" = true ∧
    is_youtube_url "m.youtube.com/watch?v=VIDEO_ID" = true ∧
    is_youtube_url "youtube.com/shorts/VIDEO_ID" = true ∧
    is_youtube_url "http://www.youtube.com/watch?v=VIDEO_ID" = true ∧
    is_youtube_url "http://youtube.com/watch?v=VIDEO_ID" = true ∧
    is_youtube_url "http://youtu.be/VIDEO_ID" = true ∧
    is_youtube_url "http://m.youtube.com/shorts/VIDEO_ID" = true := by
  refine ⟨by decide, by decide, by decide, by decide, by decide, by decide, by decide,
    by decide, by decide, by decide⟩

/-- Reduction of download_video on a successful engine call. -/
theorem download_video_ok (dir title : String) (files : List String) :
    download_video (Except.ok ()) dir title files =
      (match find_video_file (sanitize_filename title) files with
       | some f => ⟨true, some (path_join dir f)⟩
       | none => ⟨false, none⟩) := rfl

/-- Reduction of download_audio on a successful engine call. -/
theorem download_audio_ok (b : Bool) (dir title : String) (files : List String) :
    download_audio b (Except.ok ()) dir title files =
      (match find_audio_file (if b then some ".mp3" else none)
          (sanitize_filename title) files with
       | some f => ⟨true, some (path_join dir f)⟩
       | none => ⟨false, none⟩) := rfl

/-- Claim C7: the download operations convert every engine failure into a
failure result instead of letting it propagate, and every result with
success false carries no file path. -/
theorem C7_download_error_handling (e : String) (b : Bool) (dir title : String)
    (files : List String) (fetch : Except String Unit) :
    download_video (Except.error e) dir title files = ⟨false, none⟩ ∧
    download_audio b (Except.error e) dir title files = ⟨false, none⟩ ∧
    ((download_video fetch dir title files).success = false →
      (download_video fetch dir title files).filePath = none) ∧
    ((download_audio b fetch dir title files).success = false →
      (download_audio b fetch dir title files).filePath = none) := by
  refine ⟨rfl, rfl, ?_, ?_⟩
  · cases fetch with
    | error e' => exact fun _ => rfl
    | ok u =>
      cases u
      rw [download_video_ok]
      cases h : find_video_file (sanitize_filename title) files with
      | some f => intro hs; exact absurd hs (by simp)
      | none => exact fun _ => rfl
  · cases fetch with
    | error e' => exact fun _ => rfl
    | ok u =>
      cases u
      rw [download_audio_ok]
      cases h : find_audio_file (if b then some ".mp3" else none)
          (sanitize_filename title) files with
      | some f => intro hs; exact absurd hs (by simp)
      | none => exact fun _ => rfl

/-- Witness for C7 at a failing engine call and at an engine call that
finished but left an empty scratch directory. -/
theorem C7_download_error_handling_witness :
    download_video (Except.error "boom") "dir" "title" [] = ⟨false, none⟩ ∧
    download_audio true (Except.error "boom") "dir" "title" [] = ⟨false, none⟩ ∧
    (download_audio true (Except.ok ()) "dir" "title" []).filePath = none := by
  have h := C7_download_error_handling "boom" true "dir" "title" [] (Except.ok ())
  exact ⟨h.1, h.2.1, h.2.2.2 (by decide)⟩

/-- Counterexample to claim C8: after a cancel callback (and equally
after a format choice) the pending metadata record is still in the
session slot — handle_callback never clears it. -/
theorem C8_session_counterexample :
    (handle_callback "cancel" (some sampleMeta)).1 = some sampleMeta ∧
    (handle_callback "download_mp4" (some sampleMeta)).1 = some sampleMeta ∧
    ¬ (handle_callback "cancel" (some sampleMeta)).1 = none := by
  refine ⟨rfl, rfl, by decide⟩

/-- Claim C8 as amended: the callback handler never modifies the pending
metadata slot — after a format choice or a cancel the slot is exactly
what it was before; the single slot is overwritten only when a new URL
passes the gate, so at most one pending record exists per session. -/
theorem C8_session_amended (data : String) (session : Option VideoMetadata)
    (resolved : VideoMetadata) (threshold : Int) :
    (handle_callback data session).1 = session ∧
    (¬ resolved.like_count < threshold →
      process_youtube_url_state (some resolved) threshold session = some resolved) ∧
    (resolved.like_count < threshold →
      process_youtube_url_state (some resolved) threshold session = session) ∧
    process_youtube_url_state none threshold session = session := by
  refine ⟨?_, fun h => by simp [process_youtube_url_state, h],
    fun h => by simp [process_youtube_url_state, h], rfl⟩
  unfold handle_callback
  by_cases hc : data = "cancel"
  · rw [if_pos hc]
  · rw [if_neg hc]
    cases session with
    | none => rfl
    | some info =>
      show (if data = "download_mp4" then
          ((some info : Option VideoMetadata), BotReply.startedDownload "mp4")
        else if data = "download_mp3" then (some info, BotReply.startedDownload "mp3")
        else (some info, BotReply.noReply)).1 = some info
      by_cases h4 : data = "download_mp4"
      · rw [if_pos h4]
      · rw [if_neg h4]
        by_cases h3 : data = "download_mp3"
        · rw [if_pos h3]
        · rw [if_neg h3]

/-- Witness for the amended C8 at concrete inputs: the slot survives an
unrelated callback, and a gate pass overwrites it. -/
theorem C8_session_amended_witness :
    (handle_callback "cancel" none).1 = none ∧
    process_youtube_url_state (some sampleMeta) 10 none = some sampleMeta := by
  have h := C8_session_amended "cancel" none sampleMeta 10
  exact ⟨h.1, h.2.1 (by decide)⟩

end YTBot

namespace YTBot

/-- Counterexample to claim C2: for the video kind the source checks only
the title prefix, never an extension.  With the scratch listing holding
only "My_Title.txt" — which ends with no known audio/video extension —
the claimed discovery yields no path, yet download_video succeeds and
returns that very file. -/
theorem C2_discovery_counterexample :
    download_video (Except.ok ()) "/tmp" "My_Title" ["My_Title.txt"] =
      ⟨true, some "/tmp/My_Title.txt"⟩ ∧
    (∀ ext ∈ specKnownAVExtensions, endswith "My_Title.txt" ext = false) ∧
    specOutputDiscovery false false "My_Title" ["My_Title.txt"] = none := by
  refine ⟨by decide, by decide, by decide⟩

/-- A successful find? returns the first match: the list splits into a
seen part with no match, the returned entry, and the rest. -/
theorem find?_first_split {α : Type} (p : α → Bool) :
    ∀ (l : List α) (a : α), l.find? p = some a →
      ∃ l1 l2, l = l1 ++ a :: l2 ∧ p a = true ∧ ∀ x ∈ l1, p x = false := by
  intro l
  induction l with
  | nil => intro a h; cases h
  | cons x xs ih =>
    intro a h
    by_cases hx : p x = true
    · rw [List.find?_cons_of_pos xs hx] at h
      cases h
      exact ⟨[], xs, rfl, hx, by intro y hy; cases hy⟩
    · rw [List.find?_cons_of_neg xs hx] at h
      obtain ⟨l1, l2, heq, hpa, hl1⟩ := ih a h
      refine ⟨x :: l1, l2, by rw [heq, List.cons_append], hpa, ?_⟩
      intro y hy
      rcases List.mem_cons.mp hy with rfl | hy'
      · exact Bool.eq_false_iff.mpr hx
      · exact hl1 y hy'

/-- Claim C2 as amended: for the video kind discovery returns the first
entry whose name starts with the sanitized title, with no extension
condition; for the audio kind the priority order is (1) title prefix and
the expected ".mp3" (only when transcoding was used), (2) title prefix
and a known audio extension, (3) any entry with a known audio extension;
first match wins, no match or an empty scratch directory gives failure
with no path. -/
theorem C2_discovery_amended (expected : Option String) (safe dir title : String)
    (files : List String) (b : Bool) :
    (find_audio_file expected safe files = none ↔
      ∀ f ∈ files, audioPred1 expected safe f = false ∧
        audioPred2 safe f = false ∧ audioPred3 f = false) ∧
    ((∃ f ∈ files, audioPred1 expected safe f = true) →
      ∃ g, find_audio_file expected safe files = some g ∧
        audioPred1 expected safe g = true) ∧
    (∀ g, find_audio_file expected safe files = some g →
      audioPred1 expected safe g = true ∨ audioPred2 safe g = true ∨
        audioPred3 g = true) ∧
    ((∃ f ∈ files, startswith f safe = true) →
      ∃ g ∈ files, find_video_file safe files = some g ∧ startswith g safe = true) ∧
    (find_video_file safe files = none ↔ ∀ f ∈ files, startswith f safe = false) ∧
    download_video (Except.ok ()) dir title [] = ⟨false, none⟩ ∧
    download_audio b (Except.ok ()) dir title [] = ⟨false, none⟩ ∧
    (∀ g, files.find? (audioPred1 expected safe) = some g →
      find_audio_file expected safe files = some g) ∧
    (files.find? (audioPred1 expected safe) = none →
      ∀ g, files.find? (audioPred2 safe) = some g →
        find_audio_file expected safe files = some g) ∧
    (files.find? (audioPred1 expected safe) = none →
      files.find? (audioPred2 safe) = none →
        find_audio_file expected safe files = files.find? audioPred3) ∧
    (∀ (p : String → Bool) (g : String), files.find? p = some g →
      ∃ l1 l2, files = l1 ++ g :: l2 ∧ p g = true ∧ ∀ f ∈ l1, p f = false) ∧
    find_video_file safe files = (files.find? fun f => startswith f safe) := by
  refine ⟨?_, ?_, ?_, ?_, ?_, rfl, ?_, ?_, ?_, ?_, ?_, rfl⟩
  · constructor
    · intro h f hf
      rcases h1 : files.find? (audioPred1 expected safe) with _ | g
      · rcases h2 : files.find? (audioPred2 safe) with _ | g
        · rw [find_audio_file_eq, h1, h2] at h
          exact ⟨Bool.eq_false_iff.mpr (List.find?_eq_none.mp h1 f hf),
            Bool.eq_false_iff.mpr (List.find?_eq_none.mp h2 f hf),
            Bool.eq_false_iff.mpr (List.find?_eq_none.mp h f hf)⟩
        · rw [find_audio_file_eq, h1, h2] at h
          exact absurd h (by simp)
      · rw [find_audio_file_eq, h1] at h
        exact absurd h (by simp)
    · intro h
      have h1 : files.find? (audioPred1 expected safe) = none :=
        List.find?_eq_none.mpr fun f hf => by simp [(h f hf).1]
      have h2 : files.find? (audioPred2 safe) = none :=
        List.find?_eq_none.mpr fun f hf => by simp [(h f hf).2.1]
      have h3 : files.find? audioPred3 = none :=
        List.find?_eq_none.mpr fun f hf => by simp [(h f hf).2.2]
      rw [find_audio_file_eq, h1, h2, h3]
  · intro h
    have hs : (files.find? (audioPred1 expected safe)).isSome = true :=
      List.find?_isSome.mpr h
    rcases h1 : files.find? (audioPred1 expected safe) with _ | g
    · rw [h1] at hs; exact absurd hs (by simp)
    · exact ⟨g, by rw [find_audio_file_eq, h1], List.find?_some h1⟩
  · intro g hg
    rw [find_audio_file_eq] at hg
    rcases h1 : files.find? (audioPred1 expected safe) with _ | g1
    · rcases h2 : files.find? (audioPred2 safe) with _ | g2
      · rw [h1, h2] at hg
        exact Or.inr (Or.inr (List.find?_some hg))
      · rw [h1, h2] at hg
        cases hg
        exact Or.inr (Or.inl (List.find?_some h2))
    · rw [h1] at hg
      cases hg
      exact Or.inl (List.find?_some h1)
  · intro h
    have hs : (files.find? fun f => startswith f safe).isSome = true :=
      List.find?_isSome.mpr h
    rcases h1 : files.find? (fun f => startswith f safe) with _ | g
    · rw [h1] at hs; exact absurd hs (by simp)
    · refine ⟨g, List.mem_of_find?_eq_some h1, h1, ?_⟩
      have hp := List.find?_some h1
      simpa using hp
  · unfold find_video_file
    constructor
    · intro h f hf
      exact Bool.eq_false_iff.mpr (List.find?_eq_none.mp h f hf)
    · intro h
      exact List.find?_eq_none.mpr fun f hf => by simp [h f hf]
  · cases b <;> rfl
  · intro g h1
    rw [find_audio_file_eq, h1]
  · intro h1 g h2
    rw [find_audio_file_eq, h1, h2]
  · intro h1 h2
    rw [find_audio_file_eq, h1, h2]
  · intro p g hg
    exact find?_first_split p files g hg

/-- Witness for the amended C2: with transcoding expected the scan picks
the matching mp3; without transcoding a title-prefixed audio entry wins
over an earlier prefix-less one (step 2 takes precedence over step 3);
find? returns the first match; an empty directory yields failure. -/
theorem C2_discovery_amended_witness :
    (∃ g, find_audio_file (some ".mp3") "My_Title" ["My_Title.mp3"] = some g ∧
      audioPred1 (some ".mp3") "My_Title" g = true) ∧
    find_audio_file none "My_Title" ["Other.mp3", "My_Title.m4a"] =
      some "My_Title.m4a" ∧
    (∃ l1 l2, ["x.txt", "a.mp3"] = l1 ++ "a.mp3" :: l2 ∧
      audioPred3 "a.mp3" = true ∧ ∀ f ∈ l1, audioPred3 f = false) ∧
    download_audio true (Except.ok ()) "dir" "title" [] = ⟨false, none⟩ := by
  have h := C2_discovery_amended (some ".mp3") "My_Title" "dir" "title"
    ["My_Title.mp3"] true
  have h2 := C2_discovery_amended none "My_Title" "dir" "title"
    ["Other.mp3", "My_Title.m4a"] true
  have h3 := C2_discovery_amended none "x" "dir" "title" ["x.txt", "a.mp3"] true
  refine ⟨h.2.1 ⟨"My_Title.mp3", by decide, by decide⟩, ?_, ?_, ?_⟩
  · exact h2.2.2.2.2.2.2.2.2.1 (by decide) "My_Title.m4a" (by decide)
  · exact h3.2.2.2.2.2.2.2.2.2.2.1 audioPred3 "a.mp3" (by decide)
  · exact h.2.2.2.2.2.2.1

end YTBot
